import Mathlib

/-!
# Verification of `gamma_spectroscopy/fake_picoscope.py`

A shallow embedding of the `FakePicoScope` class.  Machine numbers are
modelled exactly: Python integers become `ℤ` and the floating-point
expressions of the source become the corresponding exact rational
expressions over `ℚ` (every constant in the source — `500e6`, `62.5e6`,
`1e9`, `1e-9`, `0.5`, `.3` — is a decimal literal, embedded as the rational
it denotes).

The mutable object state (`self._channels_enabled`, `self.data_is_ready`,
`self._timer`, and the run attributes `_num_samples`, `_timebase`,
`_num_captures` that only exist after `start_run` has run) becomes the
structure `PicoState`; attributes that may be unset (Python would raise
`AttributeError` on access) are `Option`-valued.  `threading.Timer`
objects are modelled as entries of a list `timers`: `start_run` appends a
new entry (the source never cancels the previous one), `stop` sets the
`cancelled` flag of the timer currently held in `self._timer`, and the
environment event `fireTimer` fires a timer whose delay has elapsed —
it invokes the timer's callback iff the timer was neither cancelled nor
already fired, exactly the semantics of `threading.Timer`.  The history
field `firedCallbacks` records which timers' callbacks have been invoked,
so that temporal claims about handlers firing can be stated.
-/

set_option autoImplicit false
set_option linter.unusedVariables false

namespace FakePicoScope

/-- The errors the embedded methods can signal.  `attributeError` is
Python's `AttributeError`, raised when a run attribute such as
`self._timebase` is read before `start_run` ever set it; `valueError` is
NumPy's `ValueError: negative dimensions are not allowed`, raised by
`np.ones` when a stored sample or capture count is negative. -/
inductive PSError where
  | attributeError : PSError
  | valueError : PSError
  | notImplementedError : PSError
deriving DecidableEq

/-- `get_interval_from_timebase(self, timebase, num_samples=1000)`:
`if timebase <= 3: return 2 ** (timebase - 1) / 500e6 * 1e9` and otherwise
`return (timebase - 3) / 62.5e6 * 1e9`.  The function reads neither
`self` nor `num_samples`; Python evaluates `2 ** (timebase - 1)` for a
negative exponent as an exact power of two, which `zpow` on `ℚ` mirrors. -/
def get_interval_from_timebase (timebase : ℤ) (num_samples : ℤ) : ℚ :=
  if timebase ≤ 3 then
    (2 : ℚ) ^ (timebase - 1) / 500000000 * 1000000000
  else
    ((timebase : ℚ) - 3) / 62500000 * 1000000000

/-- `_calculate_time_values(self, timebase, num_samples)`:
`interval = self.get_interval_from_timebase(timebase, num_samples)` then
`return interval * np.arange(num_samples) * 1e-9`.  `np.arange(n)` is
`[0, 1, ..., n-1]` and is empty for `n ≤ 0`, hence `Int.toNat`. -/
def _calculate_time_values (timebase : ℤ) (num_samples : ℤ) : List ℚ :=
  (List.range num_samples.toNat).map
    (fun (i : ℕ) => get_interval_from_timebase timebase num_samples
      * (i : ℚ) * (1 / 1000000000))

/-- The callback passed to `start_run` (`None` becomes the default
callback `self._callback` built by `callback_factory(self.data_is_ready)`,
which sets the `data_is_ready` event).  A caller-supplied C-style callback
is opaque to the scope's state; we tag it with an identifier. -/
inductive CallbackKind where
  | defaultCb : CallbackKind
  | custom : Nat → CallbackKind
deriving DecidableEq

/-- One `threading.Timer` created by `start_run`: its callback, whether
`cancel()` has been called on it, and whether it has already fired. -/
structure TimerState where
  callback : CallbackKind
  cancelled : Bool
  fired : Bool
deriving DecidableEq

/-- The mutable state of a `FakePicoScope` instance.  `timer` holds the
index (into `timers`) of the timer currently stored in `self._timer`
(`none` = Python `None`).  `num_samples`, `timebase`, `num_captures` are
`none` until the first `start_run` sets them.  `firedCallbacks` is a
history variable listing the timers whose callback has been invoked. -/
structure PicoState where
  channels_enabled : List (String × Bool)
  data_is_ready : Bool
  timer : Option Nat
  num_samples : Option ℤ
  timebase : Option ℤ
  num_captures : Option ℤ
  timers : List TimerState
  firedCallbacks : List Nat
deriving DecidableEq

/-- `__init__`: `self._channels_enabled = {'A': True, 'B': True}`, the
`data_is_ready` event starts not-set, `self._timer = None`, and no run
attribute exists yet. -/
def initState : PicoState where
  channels_enabled := [("A", true), ("B", true)]
  data_is_ready := false
  timer := none
  num_samples := none
  timebase := none
  num_captures := none
  timers := []
  firedCallbacks := []

/-- `set_channel(self, channel_name, coupling_type='DC', range_value=1,
offset=0, is_enabled=True)`: the body is `pass`; nothing is stored. -/
def set_channel (s : PicoState) (channel_name : String)
    (is_enabled : Bool) : PicoState :=
  s

/-- `open(self, serial=None, resolution_bits=12)`: calls
`self.set_channel('A', is_enabled=False)` and
`self.set_channel('B', is_enabled=False)`. -/
def open_device (s : PicoState) : PicoState :=
  set_channel (set_channel s "A" false) "B" false

/-- `close(self)`: body is `pass`. -/
def close (s : PicoState) : PicoState :=
  s

/-- `set_up_buffers(self, num_samples, num_captures=1)`: body is `pass`. -/
def set_up_buffers (s : PicoState) (num_samples num_captures : ℤ) :
    PicoState :=
  s

/-- `set_trigger(self, channel_name, ...)`: body is `pass`. -/
def set_trigger (s : PicoState) (channel_name : String) : PicoState :=
  s

/-- `measure` raises `NotImplementedError`: no state change, no result. -/
def measure (s : PicoState) : Except PSError Unit :=
  Except.error PSError.notImplementedError

/-- `measure_adc_values` raises `NotImplementedError`. -/
def measure_adc_values (s : PicoState) : Except PSError Unit :=
  Except.error PSError.notImplementedError

/-- `get_adc_data` raises `NotImplementedError`. -/
def get_adc_data (s : PicoState) : Except PSError Unit :=
  Except.error PSError.notImplementedError

/-- `start_run(self, num_pre_samples, num_post_samples, timebase=4,
num_captures=1, callback=None)`: stores
`self._num_samples = num_pre_samples + num_post_samples`,
`self._timebase`, `self._num_captures`; substitutes the default callback
for `None`; `self.data_is_ready.clear()`; then builds a fresh
`Timer(0.5, callback, ...)`, starts it and overwrites `self._timer` with
it.  Note that the previously stored timer is NOT cancelled: it stays
live in `timers` with `cancelled = false`. -/
def start_run (s : PicoState) (num_pre_samples num_post_samples : ℤ)
    (timebase num_captures : ℤ) (callback : Option Nat) : PicoState :=
  let cb : CallbackKind :=
    match callback with
    | none => CallbackKind.defaultCb
    | some k => CallbackKind.custom k
  { s with
    num_samples := some (num_pre_samples + num_post_samples)
    timebase := some timebase
    num_captures := some num_captures
    data_is_ready := false
    timer := some s.timers.length
    timers := s.timers ++ [{ callback := cb, cancelled := false,
                             fired := false }] }

/-- `wait_for_data(self)`: `self.data_is_ready.wait()` blocks until the
event is set but mutates nothing. -/
def wait_for_data (s : PicoState) : PicoState :=
  s

/-- `Timer.cancel()` on the timer at index `tid`: marks it cancelled so
that it will not fire (a timer that already fired is unaffected because
`fireTimer` refuses to fire a `fired` timer anyway). -/
def cancelTimer : List TimerState → Nat → List TimerState
  | [], _ => []
  | t :: ts, 0 => { t with cancelled := true } :: ts
  | t :: ts, n + 1 => t :: cancelTimer ts n

/-- `stop(self)`: `if self._timer is not None: self._timer.cancel()`.
Only the timer currently held in `self._timer` is cancelled. -/
def stop (s : PicoState) : PicoState :=
  match s.timer with
  | none => s
  | some tid => { s with timers := cancelTimer s.timers tid }

/-- Mark the timer at index `tid` as having fired. -/
def markFired : List TimerState → Nat → List TimerState
  | [], _ => []
  | t :: ts, 0 => { t with fired := true } :: ts
  | t :: ts, n + 1 => t :: markFired ts n

/-- Environment event: the 0.5 s delay of the timer at index `tid`
elapses.  Per `threading.Timer` semantics the callback runs iff the timer
was not cancelled and has not fired yet; it is recorded in
`firedCallbacks`.  The default callback — modelled from the spec: the
source builds it with `callback_factory(self.data_is_ready)` from
`picoscope_5000a` (not part of the embedded file), and per the design the
default handler closes over the completion signal and sets it — flips
`data_is_ready` to `true`.  A custom C-style callback is external and
leaves the scope's state alone. -/
def fireTimer (s : PicoState) (tid : Nat) : PicoState :=
  match s.timers[tid]? with
  | none => s
  | some t =>
    if t.cancelled || t.fired then s
    else
      let s1 : PicoState :=
        { s with
          timers := markFired s.timers tid
          firedCallbacks := s.firedCallbacks ++ [tid] }
      match t.callback with
      | CallbackKind.defaultCb => { s1 with data_is_ready := true }
      | CallbackKind.custom _ => s1

/-- `.3 * np.ones(shape=(num_captures, num_samples))`: NumPy raises
`ValueError: negative dimensions are not allowed` when either dimension
is a negative integer; otherwise the result is the
`num_captures × num_samples` grid with every entry 0.3. -/
def np_ones_scaled (num_captures num_samples : ℤ) :
    Except PSError (List (List ℚ)) :=
  if num_captures < 0 ∨ num_samples < 0 then
    Except.error PSError.valueError
  else
    Except.ok (List.replicate num_captures.toNat
      (List.replicate num_samples.toNat ((3 : ℚ) / 10)))

/-- The `for channel in self._channels_enabled:` loop of `get_data`: for
each channel in insertion order, append
`.3 * np.ones(shape=(num_captures, num_samples))` if the channel is
enabled and `None` otherwise; an exception raised by `np.ones` aborts
the loop and propagates. -/
def collect_V_data (num_captures num_samples : ℤ) :
    List (String × Bool) → Except PSError (List (Option (List (List ℚ))))
  | [] => Except.ok []
  | c :: cs =>
    if c.2 = true then
      match np_ones_scaled num_captures num_samples with
      | Except.error e => Except.error e
      | Except.ok g =>
        match collect_V_data num_captures num_samples cs with
        | Except.error e => Except.error e
        | Except.ok rest => Except.ok (some g :: rest)
    else
      match collect_V_data num_captures num_samples cs with
      | Except.error e => Except.error e
      | Except.ok rest => Except.ok (none :: rest)

/-- `get_data(self)`: reads `self._timebase`, `self._num_samples`,
`self._num_captures` (raising `AttributeError` if `start_run` never set
them), computes the time values, and runs the per-channel loop over
`self._channels_enabled` (insertion order `'A'`, `'B'`), which raises
`ValueError` from `np.ones` if a stored count is negative and a channel
is enabled. -/
def get_data (s : PicoState) :
    Except PSError (List ℚ × List (Option (List (List ℚ)))) :=
  match s.timebase, s.num_samples, s.num_captures with
  | some tb, some ns, some nc =>
    match collect_V_data nc ns s.channels_enabled with
    | Except.error e => Except.error e
    | Except.ok V_data => Except.ok (_calculate_time_values tb ns, V_data)
  | _, _, _ => Except.error PSError.attributeError

/-- The public operations of the class, plus the environment event
`timer_fires` by which a started timer's delay elapses.  Operations that
only raise `NotImplementedError` or only read state leave the state
unchanged and are included so that reachability quantifies over the whole
public surface. -/
inductive Op where
  | open_device : Op
  | close : Op
  | set_channel (channel_name : String) (is_enabled : Bool) : Op
  | measure : Op
  | measure_adc_values : Op
  | set_up_buffers (num_samples num_captures : ℤ) : Op
  | get_adc_data : Op
  | get_data : Op
  | start_run (num_pre_samples num_post_samples timebase num_captures : ℤ)
      (callback : Option Nat) : Op
  | wait_for_data : Op
  | stop : Op
  | set_trigger (channel_name : String) : Op
  | timer_fires (tid : Nat) : Op

/-- The state transition of one operation. -/
def step (s : PicoState) : Op → PicoState
  | Op.open_device => open_device s
  | Op.close => close s
  | Op.set_channel name en => set_channel s name en
  | Op.measure => s
  | Op.measure_adc_values => s
  | Op.set_up_buffers _ _ => s
  | Op.get_adc_data => s
  | Op.get_data => s
  | Op.start_run pre post tb nc cb => start_run s pre post tb nc cb
  | Op.wait_for_data => wait_for_data s
  | Op.stop => stop s
  | Op.set_trigger name => set_trigger s name
  | Op.timer_fires tid => fireTimer s tid

/-- Run a sequence of operations from a state. -/
def run (s : PicoState) (ops : List Op) : PicoState :=
  ops.foldl step s

/-- The run attributes `self._num_samples`, `self._timebase`,
`self._num_captures` are all set (reading them cannot raise
`AttributeError`) and the stored sample and capture counts are
non-negative, so `np.ones` cannot raise `ValueError` either. -/
def validRunAttrs (s : PicoState) : Prop :=
  (∃ ns, s.num_samples = some ns ∧ 0 ≤ ns) ∧
  (∃ tb, s.timebase = some tb) ∧
  (∃ nc, s.num_captures = some nc ∧ 0 ≤ nc)

/-- The operation, if it is a `start_run`, carries a configuration in
the documented domain: non-negative sample counts and a non-negative
capture count. -/
def opValid : Op → Prop
  | Op.start_run pre post _ nc _ => 0 ≤ pre ∧ 0 ≤ post ∧ 0 ≤ nc
  | _ => True

/-! ## Helper lemmas -/

theorem run_nil (s : PicoState) : run s [] = s := rfl

theorem run_cons (s : PicoState) (op : Op) (ops : List Op) :
    run s (op :: ops) = run (step s op) ops := rfl

theorem stop_timer_eq (s : PicoState) : (stop s).timer = s.timer := by
  obtain ⟨ch, dr, tm, ns, tb, nc, ts, fc⟩ := s
  cases tm <;> rfl

theorem stop_channels (s : PicoState) :
    (stop s).channels_enabled = s.channels_enabled := by
  obtain ⟨ch, dr, tm, ns, tb, nc, ts, fc⟩ := s
  cases tm <;> rfl

theorem stop_data_is_ready (s : PicoState) :
    (stop s).data_is_ready = s.data_is_ready := by
  obtain ⟨ch, dr, tm, ns, tb, nc, ts, fc⟩ := s
  cases tm <;> rfl

theorem stop_run_attrs (s : PicoState) :
    (stop s).num_samples = s.num_samples ∧
    (stop s).timebase = s.timebase ∧
    (stop s).num_captures = s.num_captures := by
  obtain ⟨ch, dr, tm, ns, tb, nc, ts, fc⟩ := s
  cases tm <;> exact ⟨rfl, rfl, rfl⟩

theorem fireTimer_channels (s : PicoState) (tid : Nat) :
    (fireTimer s tid).channels_enabled = s.channels_enabled := by
  unfold fireTimer
  cases h : s.timers[tid]? with
  | none => rfl
  | some t =>
    by_cases hc : (t.cancelled || t.fired) = true
    · simp only [hc, if_true]
    · simp only [hc, if_false]
      cases t.callback <;> rfl

theorem fireTimer_run_attrs (s : PicoState) (tid : Nat) :
    (fireTimer s tid).num_samples = s.num_samples ∧
    (fireTimer s tid).timebase = s.timebase ∧
    (fireTimer s tid).num_captures = s.num_captures := by
  unfold fireTimer
  cases h : s.timers[tid]? with
  | none => exact ⟨rfl, rfl, rfl⟩
  | some t =>
    by_cases hc : (t.cancelled || t.fired) = true
    · simp [hc]
    · simp only [hc, if_false]
      cases t.callback <;> exact ⟨rfl, rfl, rfl⟩

theorem step_channels (s : PicoState) (op : Op) :
    (step s op).channels_enabled = s.channels_enabled := by
  cases op with
  | stop => exact stop_channels s
  | timer_fires tid => exact fireTimer_channels s tid
  | _ => rfl

theorem run_channels (s : PicoState) (ops : List Op) :
    (run s ops).channels_enabled = s.channels_enabled := by
  induction ops generalizing s with
  | nil => rfl
  | cons op ops ih => rw [run_cons, ih, step_channels]

theorem start_run_validRunAttrs (s : PicoState)
    (pre post tb nc : ℤ) (cb : Option Nat) (h1 : 0 ≤ pre)
    (h2 : 0 ≤ post) (h3 : 0 ≤ nc) :
    validRunAttrs (start_run s pre post tb nc cb) :=
  ⟨⟨pre + post, rfl, by omega⟩, ⟨tb, rfl⟩, ⟨nc, rfl, h3⟩⟩

theorem step_validRunAttrs (s : PicoState) (op : Op) (hop : opValid op)
    (h : validRunAttrs s) : validRunAttrs (step s op) := by
  cases op with
  | stop =>
    obtain ⟨ha, hb, hc⟩ := stop_run_attrs s
    obtain ⟨⟨ns, hns, h1⟩, ⟨tb, htb⟩, ⟨nc, hnc, h2⟩⟩ := h
    exact ⟨⟨ns, by rw [step, ha, hns], h1⟩, ⟨tb, by rw [step, hb, htb]⟩,
      ⟨nc, by rw [step, hc, hnc], h2⟩⟩
  | timer_fires tid =>
    obtain ⟨ha, hb, hc⟩ := fireTimer_run_attrs s tid
    obtain ⟨⟨ns, hns, h1⟩, ⟨tb, htb⟩, ⟨nc, hnc, h2⟩⟩ := h
    exact ⟨⟨ns, by rw [step, ha, hns], h1⟩, ⟨tb, by rw [step, hb, htb]⟩,
      ⟨nc, by rw [step, hc, hnc], h2⟩⟩
  | start_run pre post tb nc cb =>
    obtain ⟨h1, h2, h3⟩ := hop
    exact start_run_validRunAttrs s pre post tb nc cb h1 h2 h3
  | _ => exact h

theorem run_validRunAttrs (s : PicoState) (ops : List Op)
    (hops : ∀ op ∈ ops, opValid op) (h : validRunAttrs s) :
    validRunAttrs (run s ops) := by
  induction ops generalizing s with
  | nil => exact h
  | cons op ops ih =>
    exact ih (step s op) (fun o ho => hops o (List.mem_cons_of_mem _ ho))
      (step_validRunAttrs s op (hops op (List.mem_cons_self _ _)) h)

theorem collect_V_data_ok (nc ns : ℤ) (h1 : 0 ≤ nc) (h2 : 0 ≤ ns)
    (l : List (String × Bool)) :
    collect_V_data nc ns l = Except.ok (l.map (fun c =>
      if c.2 = true then
        some (List.replicate nc.toNat
          (List.replicate ns.toNat ((3 : ℚ) / 10)))
      else none)) := by
  have hneg : ¬(nc < 0 ∨ ns < 0) := by omega
  induction l with
  | nil => rfl
  | cons c cs ih =>
    by_cases hc : c.2 = true <;>
      simp [collect_V_data, np_ones_scaled, hneg, hc, ih]

theorem get_data_ok_of_valid (s : PicoState) (tb ns nc : ℤ)
    (htb : s.timebase = some tb) (hns : s.num_samples = some ns)
    (hnc : s.num_captures = some nc) (h1 : 0 ≤ ns) (h2 : 0 ≤ nc) :
    get_data s = Except.ok (_calculate_time_values tb ns,
      s.channels_enabled.map (fun c =>
        if c.2 = true then
          some (List.replicate nc.toNat
            (List.replicate ns.toNat ((3 : ℚ) / 10)))
        else none)) := by
  simp only [get_data, htb, hns, hnc, collect_V_data_ok nc ns h2 h1]

theorem get_data_ok_of_validRunAttrs (s : PicoState)
    (h : validRunAttrs s) :
    ∃ tv vd, get_data s = Except.ok (tv, vd) := by
  obtain ⟨⟨ns, hns, h1⟩, ⟨tb, htb⟩, ⟨nc, hnc, h2⟩⟩ := h
  exact ⟨_, _, get_data_ok_of_valid s tb ns nc htb hns hnc h1 h2⟩

theorem cancelTimer_idem (l : List TimerState) (tid : Nat) :
    cancelTimer (cancelTimer l tid) tid = cancelTimer l tid := by
  induction l generalizing tid with
  | nil => rfl
  | cons t ts ih =>
    cases tid with
    | zero => rfl
    | succ n => simp only [cancelTimer]; rw [ih]

theorem stop_stop (s : PicoState) : stop (stop s) = stop s := by
  obtain ⟨ch, dr, tm, ns, tb, nc, ts, fc⟩ := s
  cases tm with
  | none => rfl
  | some tid =>
    simp only [stop]
    rw [cancelTimer_idem]

theorem fireTimer_fires (s : PicoState) (tid : Nat) (t : TimerState)
    (hget : s.timers[tid]? = some t) (hc : t.cancelled = false)
    (hf : t.fired = false) :
    (fireTimer s tid).firedCallbacks = s.firedCallbacks ++ [tid] := by
  unfold fireTimer
  rw [hget]
  simp only [hc, hf, Bool.or_self, if_false]
  cases t.callback <;> rfl

theorem start_run_fields (s : PicoState) (pre post tb nc : ℤ)
    (cb : Option Nat) :
    (start_run s pre post tb nc cb).num_samples = some (pre + post) ∧
    (start_run s pre post tb nc cb).timebase = some tb ∧
    (start_run s pre post tb nc cb).num_captures = some nc ∧
    (start_run s pre post tb nc cb).data_is_ready = false ∧
    (start_run s pre post tb nc cb).timer = some s.timers.length ∧
    (start_run s pre post tb nc cb).timers.length = s.timers.length + 1 :=
  ⟨rfl, rfl, rfl, rfl, rfl, by simp [start_run]⟩

theorem fireTimer_default_sets_ready (s : PicoState) (tid : Nat)
    (t : TimerState) (hget : s.timers[tid]? = some t)
    (hc : t.cancelled = false) (hf : t.fired = false)
    (hcb : t.callback = CallbackKind.defaultCb) :
    (fireTimer s tid).data_is_ready = true := by
  unfold fireTimer
  rw [hget]
  simp [hc, hf, hcb]

/-! ## Claims -/

/-- C2: for every integer timebase ≥ 1 (and any sample count),
`get_interval_from_timebase` returns `2^(timebase-1)/500e6*1e9`
nanoseconds when `timebase ≤ 3` and `(timebase-3)/62.5e6*1e9` nanoseconds
when `timebase > 3`; in particular timebases 1, 2, 3 and 4 yield 2.0,
4.0, 8.0 and 16.0 ns. -/
theorem C2_interval_regimes (timebase num_samples : ℤ)
    (h : 1 ≤ timebase) :
    (timebase ≤ 3 →
      get_interval_from_timebase timebase num_samples
        = (2 : ℚ) ^ (timebase - 1) / 500000000 * 1000000000) ∧
    (3 < timebase →
      get_interval_from_timebase timebase num_samples
        = ((timebase : ℚ) - 3) / 62500000 * 1000000000) ∧
    get_interval_from_timebase 1 num_samples = 2 ∧
    get_interval_from_timebase 2 num_samples = 4 ∧
    get_interval_from_timebase 3 num_samples = 8 ∧
    get_interval_from_timebase 4 num_samples = 16 := by
  refine ⟨fun h3 => ?_, fun h3 => ?_, ?_, ?_, ?_, ?_⟩
  · rw [get_interval_from_timebase, if_pos h3]
  · rw [get_interval_from_timebase, if_neg (by omega)]
  all_goals norm_num [get_interval_from_timebase]

/-- Witness for C2 at timebase 4, num_samples 7. -/
theorem C2_interval_regimes_witness :
    (1 : ℤ) ≤ 4 ∧ get_interval_from_timebase 4 7 = 16 :=
  ⟨by norm_num, (C2_interval_regimes 4 7 (by norm_num)).2.2.2.2.2⟩

/-- C3 counterexample: at timebase 0 (< 1) the function does not fail; it
returns the value 1.0 ns (the `timebase ≤ 3` branch applies to every
timebase < 1, and the function is total — it has no failure path at
all). -/
theorem C3_counterexample :
    get_interval_from_timebase 0 1000 = 1 := by
  norm_num [get_interval_from_timebase]

/-- C3 (amended): for every integer timebase < 1 (and any sample count),
`get_interval_from_timebase` does not fail: it takes the `timebase ≤ 3`
branch and returns `2^(timebase-1)/500e6*1e9` nanoseconds (e.g. 1.0 ns
at timebase 0). -/
theorem C3_low_timebase_returns (timebase num_samples : ℤ)
    (h : timebase < 1) :
    get_interval_from_timebase timebase num_samples
      = (2 : ℚ) ^ (timebase - 1) / 500000000 * 1000000000 := by
  rw [get_interval_from_timebase, if_pos (by omega)]

/-- Witness for the amended C3 at timebase -1. -/
theorem C3_low_timebase_returns_witness :
    (-1 : ℤ) < 1 ∧
    get_interval_from_timebase (-1) 1000
      = (2 : ℚ) ^ ((-1 : ℤ) - 1) / 500000000 * 1000000000 :=
  ⟨by norm_num, C3_low_timebase_returns (-1) 1000 (by norm_num)⟩

/-- C8 counterexample: with the negative integer `num_samples = -1` the
call does not fail with `InvalidArgument`; it returns 16.0 ns (the
argument is never inspected and the function has no failure path). -/
theorem C8_counterexample :
    get_interval_from_timebase 4 (-1) = 16 := by
  norm_num [get_interval_from_timebase]

/-- C8 (amended): for every timebase ≥ 1, `num_samples` does not affect
the result of `get_interval_from_timebase` — the returned interval is the
same for every `num_samples` value, including negative integers, and no
`InvalidArgument` failure occurs for any `num_samples`. -/
theorem C8_num_samples_irrelevant (timebase : ℤ) (h : 1 ≤ timebase) :
    ∀ num_samples num_samples2 : ℤ,
      get_interval_from_timebase timebase num_samples
        = get_interval_from_timebase timebase num_samples2 :=
  fun _ _ => rfl

/-- Witness for the amended C8 at timebase 4. -/
theorem C8_num_samples_irrelevant_witness :
    (1 : ℤ) ≤ 4 ∧
    get_interval_from_timebase 4 (-5) = get_interval_from_timebase 4 1000 :=
  ⟨by norm_num, C8_num_samples_irrelevant 4 (by norm_num) (-5) 1000⟩

/-- C6 counterexample: `start_run` with `num_pre_samples = -1` (violating
`preSamples ≥ 0`, and `totalSamples = -1 < 1`) does not fail with
`InvalidArgument` and does not leave the state unchanged: it stores the
invalid configuration and schedules a timer. -/
theorem C6_counterexample :
    (start_run initState (-1) 0 4 1 none).num_samples = some (-1) ∧
    (start_run initState (-1) 0 4 1 none).timer = some 0 ∧
    start_run initState (-1) 0 4 1 none ≠ initState := by decide

/-- C6 (amended): `start_run` performs no validation whatsoever: even
when the supplied configuration violates `preSamples ≥ 0`,
`postSamples ≥ 0`, `preSamples + postSamples ≥ 1` or `captureCount ≥ 1`,
it succeeds — storing the configuration, clearing the ready signal and
scheduling a fresh timer — rather than failing with `InvalidArgument`
and leaving the state unchanged. -/
theorem C6_no_validation (pre post tb nc : ℤ) (cb : Option Nat)
    (s : PicoState)
    (h : pre < 0 ∨ post < 0 ∨ pre + post < 1 ∨ nc < 1) :
    (start_run s pre post tb nc cb).num_samples = some (pre + post) ∧
    (start_run s pre post tb nc cb).timebase = some tb ∧
    (start_run s pre post tb nc cb).num_captures = some nc ∧
    (start_run s pre post tb nc cb).data_is_ready = false ∧
    (start_run s pre post tb nc cb).timer = some s.timers.length ∧
    (start_run s pre post tb nc cb).timers.length
      = s.timers.length + 1 :=
  start_run_fields s pre post tb nc cb

/-- Witness for the amended C6: the invalid configuration
`pre = -1, post = 0, captures = 1` is accepted. -/
theorem C6_no_validation_witness :
    ((-1 : ℤ) < 0 ∨ (0 : ℤ) < 0 ∨ (-1 : ℤ) + 0 < 1 ∨ (1 : ℤ) < 1) ∧
    ((start_run initState (-1) 0 4 1 none).num_samples
        = some ((-1) + 0) ∧
      (start_run initState (-1) 0 4 1 none).timebase = some 4 ∧
      (start_run initState (-1) 0 4 1 none).num_captures = some 1 ∧
      (start_run initState (-1) 0 4 1 none).data_is_ready = false ∧
      (start_run initState (-1) 0 4 1 none).timer
        = some initState.timers.length ∧
      (start_run initState (-1) 0 4 1 none).timers.length
        = initState.timers.length + 1) :=
  ⟨Or.inl (by norm_num),
    C6_no_validation (-1) 0 4 1 none initState (Or.inl (by norm_num))⟩

/-- `get_data` never reads the `data_is_ready` event: its result is the
same whatever the completion signal's value. -/
theorem get_data_ignores_signal (s : PicoState) (b : Bool) :
    get_data { s with data_is_ready := b } = get_data s := by
  obtain ⟨ch, dr, tm, ns, tb, nc, ts, fc⟩ := s
  rfl

/-- C9: `stop` never raises (it is a total function on states) and is
idempotent: any number of consecutive calls, in any state — before any
run was started, during a simulated capture, or after the completion
signal fired — equals a single call, and `stop` leaves the
`data_is_ready` completion signal exactly as it was (in particular a
ready signal stays ready; `stop` never clears it). -/
theorem C9_stop_idempotent_and_signal_preserving (s : PicoState) :
    (∀ n : ℕ, stop^[n + 1] s = stop s) ∧
    (stop s).data_is_ready = s.data_is_ready := by
  constructor
  · intro n
    induction n with
    | zero => rw [Function.iterate_one]
    | succ m ih => rw [Function.iterate_succ_apply', ih, stop_stop]
  · exact stop_data_is_ready s

/-- C7 counterexample: in the initial state — reachable, since it is the
state right after construction, before any run has ever been started —
`get_data` does not succeed: it fails with `AttributeError` because
`self._timebase`, `self._num_samples` and `self._num_captures` were never
set. -/
theorem C7_counterexample :
    get_data initState = Except.error PSError.attributeError := rfl

/-- C7 (amended): `get_data` succeeds in every state reachable after at
least one `start_run` whose configuration lies in the documented domain
(non-negative sample counts and capture count), whatever further
operations and timer events follow — provided any later `start_run` also
stays in that domain — and it neither blocks nor checks the
`CompletionSignal`: its result is identical whether or not
`data_is_ready` has fired.  (Before any run has ever been started it
instead fails with `AttributeError`, see the counterexample; after a
`start_run` that stored a negative count it fails with `ValueError` from
`np.ones`.) -/
theorem C7_get_data_after_valid_run (pre post tb nc : ℤ)
    (cb : Option Nat) (s : PicoState) (ops : List Op)
    (hpre : 0 ≤ pre) (hpost : 0 ≤ post) (hnc : 0 ≤ nc)
    (hops : ∀ op ∈ ops, opValid op) :
    (∃ tv vd,
      get_data (run (start_run s pre post tb nc cb) ops)
        = Except.ok (tv, vd)) ∧
    (∀ b : Bool,
      get_data { run (start_run s pre post tb nc cb) ops with
          data_is_ready := b }
        = get_data (run (start_run s pre post tb nc cb) ops)) :=
  ⟨get_data_ok_of_validRunAttrs _
      (run_validRunAttrs _ ops hops
        (start_run_validRunAttrs s pre post tb nc cb hpre hpost hnc)),
    fun b => get_data_ignores_signal _ b⟩

/-- Witness for the amended C7: a valid run (pre=10, post=90, captures=2)
followed by a `stop`. -/
theorem C7_get_data_after_valid_run_witness :
    (0 : ℤ) ≤ 10 ∧ (0 : ℤ) ≤ 90 ∧ (0 : ℤ) ≤ 2 ∧
    (∀ op ∈ [Op.stop], opValid op) ∧
    ((∃ tv vd,
      get_data (run (start_run initState 10 90 4 2 none) [Op.stop])
        = Except.ok (tv, vd)) ∧
    (∀ b : Bool,
      get_data { run (start_run initState 10 90 4 2 none) [Op.stop] with
          data_is_ready := b }
        = get_data (run (start_run initState 10 90 4 2 none)
            [Op.stop]))) :=
  ⟨by norm_num, by norm_num, by norm_num,
    (by intro op hop
        rw [List.mem_singleton] at hop
        subst hop
        exact trivial),
    C7_get_data_after_valid_run 10 90 4 2 none initState [Op.stop]
      (by norm_num) (by norm_num) (by norm_num)
      (by intro op hop
          rw [List.mem_singleton] at hop
          subst hop
          exact trivial)⟩

/-- C4: after a run started with timebase `tb` and
`totalSamples = pre + post`, `get_data` returns an elapsed-time sequence
of length `totalSamples` whose `i`-th element is
`interval_ns(tb, totalSamples) * i * 1e-9` seconds for every
`i < totalSamples` (so with timebase 4 it starts at 0.0 and increases by
16e-9 per step; the length-100 example is the witness below). -/
theorem C4_elapsed_times (pre post tb nc : ℤ) (cb : Option Nat)
    (s : PicoState) (hpre : 0 ≤ pre) (hpost : 0 ≤ post)
    (hnc : 0 ≤ nc) :
    ∃ tv vd,
      get_data (start_run s pre post tb nc cb) = Except.ok (tv, vd) ∧
      (tv.length : ℤ) = pre + post ∧
      ∀ (i : ℕ) (h : i < tv.length),
        tv.get ⟨i, h⟩
          = get_interval_from_timebase tb (pre + post) * (i : ℚ)
            * (1 / 1000000000) := by
  refine ⟨_calculate_time_values tb (pre + post), _,
    get_data_ok_of_valid (start_run s pre post tb nc cb) tb (pre + post)
      nc rfl rfl rfl (by omega) hnc, ?_, ?_⟩
  · unfold _calculate_time_values
    rw [List.length_map, List.length_range]
    omega
  · intro i h
    rw [List.get_eq_getElem]
    simp only [_calculate_time_values, List.getElem_map, List.getElem_range]

/-- Witness for C4: `startRun(pre=10, post=90, timebase=4, captures=2)`
gives a 100-element elapsed-time sequence following the 16 ns
interval. -/
theorem C4_elapsed_times_witness :
    (0 : ℤ) ≤ 10 ∧ (0 : ℤ) ≤ 90 ∧ (0 : ℤ) ≤ 2 ∧
    ∃ tv vd,
      get_data (start_run initState 10 90 4 2 none)
        = Except.ok (tv, vd) ∧
      (tv.length : ℤ) = 10 + 90 ∧
      ∀ (i : ℕ) (h : i < tv.length),
        tv.get ⟨i, h⟩
          = get_interval_from_timebase 4 (10 + 90) * (i : ℚ)
            * (1 / 1000000000) :=
  ⟨by norm_num, by norm_num, by norm_num,
    C4_elapsed_times 10 90 4 2 none initState (by norm_num) (by norm_num)
      (by norm_num)⟩

/-- C5: after a run with `nc` captures and `pre + post` total samples,
`get_data` produces for each configured channel a grid of shape
`(captureCount, totalSamples)` filled with the fixed placeholder value
0.3 if the channel is enabled, and the absent marker `none` if the
channel is disabled. -/
theorem C5_channel_grids (pre post tb nc : ℤ) (cb : Option Nat)
    (s : PicoState) (hns : 0 ≤ pre + post) (hnc : 0 ≤ nc) :
    ∃ tv vd,
      get_data (start_run s pre post tb nc cb) = Except.ok (tv, vd) ∧
      vd = s.channels_enabled.map (fun c =>
        if c.2 = true then
          some (List.replicate nc.toNat
            (List.replicate (pre + post).toNat ((3 : ℚ) / 10)))
        else none) ∧
      ∀ g ∈ vd, ∀ grid, g = some grid →
        (grid.length : ℤ) = nc ∧
        ∀ row ∈ grid, (row.length : ℤ) = pre + post := by
  refine ⟨_, _,
    get_data_ok_of_valid (start_run s pre post tb nc cb) tb (pre + post)
      nc rfl rfl rfl hns hnc, rfl, ?_⟩
  intro g hg grid hgrid
  rw [List.mem_map] at hg
  obtain ⟨c, hc, hfc⟩ := hg
  by_cases hen : c.2 = true
  · rw [if_pos hen] at hfc
    rw [hgrid] at hfc
    obtain rfl : grid = List.replicate nc.toNat
        (List.replicate (pre + post).toNat ((3 : ℚ) / 10)) :=
      (Option.some_inj.mp hfc).symm
    constructor
    · simp only [List.length_replicate]
      omega
    · intro row hrow
      rw [List.eq_of_mem_replicate hrow, List.length_replicate]
      omega
  · rw [if_neg hen] at hfc
    rw [hgrid] at hfc
    exact absurd hfc (by simp)

/-- Witness for C5: pre=10, post=90, timebase=4, captures=2 from the
initial state (both channels enabled). -/
theorem C5_channel_grids_witness :
    (0 : ℤ) ≤ 10 + 90 ∧ (0 : ℤ) ≤ 2 ∧
    ∃ tv vd,
      get_data (start_run initState 10 90 4 2 none)
        = Except.ok (tv, vd) ∧
      vd = initState.channels_enabled.map (fun c =>
        if c.2 = true then
          some (List.replicate (2 : ℤ).toNat
            (List.replicate ((10 : ℤ) + 90).toNat ((3 : ℚ) / 10)))
        else none) ∧
      ∀ g ∈ vd, ∀ grid, g = some grid →
        (grid.length : ℤ) = 2 ∧
        ∀ row ∈ grid, (row.length : ℤ) = 10 + 90 :=
  ⟨by norm_num, by norm_num,
    C5_channel_grids 10 90 4 2 none initState (by norm_num) (by norm_num)⟩

theorem getElem?_length_append {α : Type} (l : List α) (a : α) :
    (l ++ [a])[l.length]? = some a := by
  induction l with
  | nil => rfl
  | cons x xs ih => simp [ih]

theorem start_run_new_timer (s : PicoState) (pre post tb nc : ℤ)
    (cb : Option Nat) :
    ∃ t : TimerState,
      (start_run s pre post tb nc cb).timers[s.timers.length]? = some t ∧
      t.cancelled = false ∧ t.fired = false := by
  refine ⟨⟨match cb with
      | none => CallbackKind.defaultCb
      | some k => CallbackKind.custom k, false, false⟩, ?_, rfl, rfl⟩
  show (s.timers ++ [_])[s.timers.length]? = _
  exact getElem?_length_append s.timers _

/-- C1 counterexample: `start_run` is called twice in a row (the second
call before the first run's 0.5 s delay has elapsed, so the first timer
has not fired).  The first run's timer is NOT cancelled; when its delay
elapses its completion handler fires — recorded in `firedCallbacks` —
and, being the default handler, it sets `data_is_ready` although the
second run's own timer has not fired yet: precisely the late/duplicate
notification for the superseded run that the claim rules out. -/
theorem C1_counterexample :
    ((run initState [Op.start_run 10 90 4 2 none,
        Op.start_run 10 90 4 2 none]).timers[0]?).map
      TimerState.cancelled = some false ∧
    (fireTimer (run initState [Op.start_run 10 90 4 2 none,
        Op.start_run 10 90 4 2 none]) 0).firedCallbacks = [0] ∧
    (fireTimer (run initState [Op.start_run 10 90 4 2 none,
        Op.start_run 10 90 4 2 none]) 0).data_is_ready = true := by
  decide

/-- C1 (amended): calling `start_run` a second time before the first
run's simulated delay elapses does NOT invalidate the first run's
scheduled completion.  Only the stored handle `self._timer` is replaced
by the new timer; the first timer stays un-cancelled, and when its delay
elapses the first run's completion handler does fire. -/
theorem C1_superseded_timer_still_fires
    (p1 q1 t1 c1 p2 q2 t2 c2 : ℤ) (cb1 cb2 : Option Nat)
    (s : PicoState) :
    ((start_run (start_run s p1 q1 t1 c1 cb1)
        p2 q2 t2 c2 cb2).timers[s.timers.length]?).map
      TimerState.cancelled = some false ∧
    s.timers.length ∈
      (fireTimer
        (start_run (start_run s p1 q1 t1 c1 cb1) p2 q2 t2 c2 cb2)
        s.timers.length).firedCallbacks ∧
    (start_run (start_run s p1 q1 t1 c1 cb1) p2 q2 t2 c2 cb2).timer
      = some (s.timers.length + 1) := by
  obtain ⟨t, hget1, hc, hf⟩ := start_run_new_timer s p1 q1 t1 c1 cb1
  have hlen : s.timers.length
      < (start_run s p1 q1 t1 c1 cb1).timers.length := by
    simp [start_run]
  have hget : (start_run (start_run s p1 q1 t1 c1 cb1) p2 q2 t2 c2
      cb2).timers[s.timers.length]? = some t := by
    show ((start_run s p1 q1 t1 c1 cb1).timers
        ++ [_])[s.timers.length]? = some t
    rw [List.getElem?_append_left hlen]
    exact hget1
  refine ⟨?_, ?_, ?_⟩
  · simp [hget, hc]
  · rw [fireTimer_fires _ _ _ hget hc hf]
    simp
  · simp [start_run]

/-- C10: both channels `'A'` and `'B'` are enabled at construction and no
public operation (in particular not `set_channel` with
`is_enabled=False`, whose body is `pass`, nor `open`, which calls it for
both channels) ever changes the enabled map; consequently after every
sequence of public operations (and timer events) `get_data` — whenever
it returns at all — yields a placeholder grid for both channels and
never the absent marker `None`: the disabled-channel branch is
unreachable. -/
theorem C10_channels_always_enabled (ops : List Op) :
    (run initState ops).channels_enabled = [("A", true), ("B", true)] ∧
    ∀ tv vd, get_data (run initState ops) = Except.ok (tv, vd) →
      none ∉ vd := by
  have hch := run_channels initState ops
  refine ⟨hch, fun tv vd hok => ?_⟩
  unfold get_data at hok
  split at hok
  · rename_i tb ns nc heq1 heq2 heq3
    rw [hch] at hok
    cases hno : np_ones_scaled nc ns with
    | error e =>
      have hcomp : collect_V_data nc ns initState.channels_enabled
          = Except.error e := by simp [initState, collect_V_data, hno]
      rw [hcomp] at hok
      exact absurd hok (by simp)
    | ok g =>
      have hcomp : collect_V_data nc ns initState.channels_enabled
          = Except.ok [some g, some g] := by
        simp [initState, collect_V_data, hno]
      rw [hcomp] at hok
      simp only [Except.ok.injEq, Prod.mk.injEq] at hok
      obtain ⟨htv, hvd⟩ := hok
      rw [← hvd]
      simp
  · exact absurd hok (by simp)

/-- Witness for C10: after `start_run(1, 1, 4, 1)` both channels yield a
placeholder grid. -/
theorem C10_channels_always_enabled_witness :
    (run initState [Op.start_run 1 1 4 1 none]).channels_enabled
        = [("A", true), ("B", true)] ∧
    (none : Option (List (List ℚ))) ∉
      [some [[(3 : ℚ)/10, 3/10]], some [[(3 : ℚ)/10, 3/10]]] :=
  ⟨(C10_channels_always_enabled [Op.start_run 1 1 4 1 none]).1,
    (C10_channels_always_enabled [Op.start_run 1 1 4 1 none]).2
      [0, 1/62500000] [some [[(3 : ℚ)/10, 3/10]], some [[(3 : ℚ)/10, 3/10]]]
      (by simp [run, step, start_run, initState, get_data,
            collect_V_data, np_ones_scaled, _calculate_time_values,
            get_interval_from_timebase, List.replicate]
          norm_num [List.range_succ])⟩

end FakePicoScope
